import Mathlib

/-!
# Verification of the eda-cli profiling-and-scoring engine

Shallow embedding of the `eda_cli` dataset-quality engine and its HTTP
wrapper (`api.py`).  Cell values are modelled exactly (missing marker,
rational numbers, strings); Python floats are modelled as rationals, and
the standard deviation (the one genuinely irrational quantity) as a real
number.  The repository ships only `cli.py`, `api.py` and the HW03 test
file; the `core` module they import is not part of the sources, so its
functions are modelled from the specification (each such definition says
so in its doc comment).  `api.py` itself is embedded from its source.
-/

namespace EdaCli

/-- A cell of the in-memory table: a missing marker (pandas NaN/None),
a numeric value, or a string.  Python floats are modelled as rationals. -/
inductive Value where
  | na : Value
  | num (x : ℚ) : Value
  | str (s : String) : Value
deriving DecidableEq, Repr

/-- A named column: ordered sequence of cell values. -/
structure Column where
  name : String
  values : List Value
deriving DecidableEq, Repr

/-- A table: ordered sequence of named columns (a pandas DataFrame). -/
structure Table where
  cols : List Column
deriving DecidableEq, Repr

/-- Number of rows of the table: the length of its first column
(0 for a table with no columns). -/
def Table.nRows (t : Table) : ℕ :=
  match t.cols with
  | [] => 0
  | c :: _ => c.values.length

/-- Number of columns of the table. -/
def Table.nCols (t : Table) : ℕ := t.cols.length

/-- Rectangularity: every column has exactly `nRows` values.  Ragged
input is a precondition violation for the engine. -/
def Table.Rect (t : Table) : Prop :=
  ∀ c ∈ t.cols, c.values.length = t.nRows

instance (t : Table) : Decidable t.Rect := by
  unfold Table.Rect; infer_instance

/-- Whether a cell is the missing marker. -/
def Value.isNA : Value → Bool
  | .na => true
  | _ => false

/-- The non-missing values of a column. -/
def Column.nonMissing (c : Column) : List Value :=
  c.values.filter (fun v => !v.isNA)

/-- Count of missing entries of a column. -/
def Column.nMissing (c : Column) : ℕ :=
  (c.values.filter (fun v => v.isNA)).length

/-- Count of distinct non-missing values of a column. -/
def Column.nUnique (c : Column) : ℕ :=
  c.nonMissing.dedup.length

/-- A column is numeric when every value is numeric or missing
(classification by storage type, as in pandas dtype inference). -/
def Column.isNumeric (c : Column) : Bool :=
  c.values.all (fun v => match v with | .na => true | .num _ => true | .str _ => false)

/-- The numeric values of a column (non-missing entries of a numeric column). -/
def Column.numericVals (c : Column) : List ℚ :=
  c.values.filterMap (fun v => match v with | .num x => some x | _ => none)

/-- One row of the missing-value report. -/
structure MissingEntry where
  name : String
  n_missing : ℕ
  missing_share : ℚ
deriving DecidableEq, Repr

/-- Modelled from the spec: `missing_table` (MissingnessAnalyzer) maps each
column to its missing count and `missing_share = n_missing / n_rows`, defined
as 0 when `n_rows = 0` rather than NaN. -/
def missing_table (t : Table) : List MissingEntry :=
  t.cols.map (fun c =>
    { name := c.name
      n_missing := c.nMissing
      missing_share := if t.nRows = 0 then 0 else (c.nMissing : ℚ) / (t.nRows : ℚ) })

/-- Coarse dtype category of a column. `other` is the fallback of the spec for
storage types (boolean, datetime) that the value model does not contain,
so the classifier here never produces it. -/
inductive DType where
  | numeric
  | categorical
  | other
deriving DecidableEq, Repr

/-- Mean of a list of rationals (0 for the empty list; callers guard). -/
def listMean (xs : List ℚ) : ℚ := xs.sum / (xs.length : ℚ)

/-- Sum of squared deviations from the mean. -/
def sumSqDev (xs : List ℚ) : ℚ :=
  (xs.map (fun x => (x - listMean xs) ^ 2)).sum

/-- Modelled from the spec: sample standard deviation with the `n-1`
denominator convention; defined as 0 for a list with at most one element
(the spec fixes `std = 0` for exactly one non-missing value). -/
noncomputable def sampleStd (xs : List ℚ) : ℝ :=
  if xs.length ≤ 1 then 0
  else Real.sqrt ((sumSqDev xs : ℝ) / ((xs.length : ℝ) - 1))

/-- Minimum of a nonempty list of rationals (0 for the empty list; callers guard). -/
def listMin (xs : List ℚ) : ℚ :=
  match xs with
  | [] => 0
  | x :: rest => rest.foldl min x

/-- Maximum of a nonempty list of rationals (0 for the empty list; callers guard). -/
def listMax (xs : List ℚ) : ℚ :=
  match xs with
  | [] => 0
  | x :: rest => rest.foldl max x

/-- The numeric statistics block of a column summary. -/
structure NumStats where
  min : ℚ
  max : ℚ
  mean : ℚ
  std : ℝ

/-- Count of occurrences of a value in a list. -/
def countOcc (v : Value) (vs : List Value) : ℕ :=
  (vs.filter (fun w => w = v)).length

/-- Modelled from the spec: most frequent non-missing value of a column
with its frequency, ties broken by first occurrence order; absent when all
values are missing. -/
def topValue (c : Column) : Option (Value × ℕ) :=
  match c.nonMissing.dedup with
  | [] => none
  | v :: rest =>
    some (rest.foldl
      (fun best w =>
        if countOcc w c.nonMissing > countOcc best.1 c.nonMissing
        then (w, countOcc w c.nonMissing) else best)
      (v, countOcc v c.nonMissing))

/-- Per-column summary: exactly one of the numeric-stats block and the
categorical-stats block is populated, selected by `dtype_category`. -/
structure ColumnSummary where
  name : String
  dtype_category : DType
  n_missing : ℕ
  n_unique : ℕ
  numStats : Option NumStats
  topVal : Option (Value × ℕ)

/-- Modelled from the spec: ColumnProfiler.  Numeric stats are computed
over non-missing values only; all four are absent when no non-missing
value exists.  Categorical columns get the top-value block instead. -/
noncomputable def profileColumn (c : Column) : ColumnSummary :=
  if c.isNumeric then
    { name := c.name
      dtype_category := .numeric
      n_missing := c.nMissing
      n_unique := c.nUnique
      numStats :=
        match c.numericVals with
        | [] => none
        | x :: rest =>
          some { min := listMin (x :: rest)
                 max := listMax (x :: rest)
                 mean := listMean (x :: rest)
                 std := sampleStd (x :: rest) }
      topVal := none }
  else
    { name := c.name
      dtype_category := .categorical
      n_missing := c.nMissing
      n_unique := c.nUnique
      numStats := none
      topVal := topValue c }

/-- Dataset-level summary. Row/column counts are integers because the
HTTP layer fabricates summaries from raw (possibly out-of-range) request
integers. -/
structure DatasetSummary where
  n_rows : ℤ
  n_cols : ℤ
  columns : List ColumnSummary

/-- Modelled from the spec: DatasetSummarizer assembles the dataset
summary from per-column profiles. -/
noncomputable def summarize_dataset (t : Table) : DatasetSummary :=
  { n_rows := (t.nRows : ℤ)
    n_cols := (t.nCols : ℤ)
    columns := t.cols.map profileColumn }

/-- Threshold and penalty-weight configuration of the flag engine.  The
spec requires every threshold to be explicit and overridable, so the
engine is parametrised by this record. -/
structure QualityConfig where
  min_rows : ℤ
  max_cols : ℤ
  max_missing_share_threshold : ℚ
  zero_share_threshold : ℚ
  w_too_few_rows : ℚ
  w_too_many_columns : ℚ
  w_too_many_missing : ℚ
  w_has_constant_columns : ℚ
  w_has_many_zero_values : ℚ
deriving DecidableEq, Repr

/-- A value of the loosely-typed flag mapping: a boolean flag or a
numeric score/share. -/
inductive FlagValue where
  | b (v : Bool) : FlagValue
  | q (v : ℚ) : FlagValue
deriving DecidableEq, Repr

/-- Share of zeros among the non-missing values of a numeric column. -/
def Column.zeroShare (c : Column) : ℚ :=
  ((c.numericVals.filter (fun x => x = 0)).length : ℚ) / (c.numericVals.length : ℚ)

/-- Penalty sum for a given combination of triggered flags: each
triggered flag contributes its fixed weight. -/
def penaltySum (cfg : QualityConfig)
    (tfr tmc tmm hcc hmz : Bool) : ℚ :=
  (if tfr then cfg.w_too_few_rows else 0)
  + (if tmc then cfg.w_too_many_columns else 0)
  + (if tmm then cfg.w_too_many_missing else 0)
  + (if hcc then cfg.w_has_constant_columns else 0)
  + (if hmz then cfg.w_has_many_zero_values else 0)

/-- `quality_score = max(0, 1 - Σ penalty_i)` over the triggered flags. -/
def scoreOfFlags (cfg : QualityConfig)
    (tfr tmc tmm hcc hmz : Bool) : ℚ :=
  max 0 (1 - penaltySum cfg tfr tmc tmm hcc hmz)

/-- Modelled from the spec: QualityFlagEngine (`compute_quality_flags` of
the absent `core` module).  Takes the raw table, the dataset summary and
the `missing_share` column of the missing table (the only part of that
dataframe the engine reads), and returns the loosely-typed flag mapping.
Steps follow the algorithm of the spec: row/column thresholds from the
summary, max missing share over the shares, constant columns by
`n_unique ≤ 1` over non-missing values, zero-heavy numeric columns with
all-missing columns excluded, and the penalty score. -/
def compute_quality_flags (cfg : QualityConfig) (df : Table)
    (summary : DatasetSummary) (missingShares : List ℚ) :
    List (String × FlagValue) :=
  let too_few_rows : Bool := summary.n_rows < cfg.min_rows
  let too_many_columns : Bool := summary.n_cols > cfg.max_cols
  let max_missing_share : ℚ := listMax missingShares
  let too_many_missing : Bool := max_missing_share > cfg.max_missing_share_threshold
  let has_constant_columns : Bool := df.cols.any (fun c => c.nUnique ≤ 1)
  let has_many_zero_values : Bool :=
    df.cols.any (fun c =>
      c.isNumeric && !c.numericVals.isEmpty
        && c.zeroShare > cfg.zero_share_threshold)
  let quality_score : ℚ :=
    scoreOfFlags cfg too_few_rows too_many_columns too_many_missing
      has_constant_columns has_many_zero_values
  [("too_few_rows", .b too_few_rows),
   ("too_many_columns", .b too_many_columns),
   ("max_missing_share", .q max_missing_share),
   ("too_many_missing", .b too_many_missing),
   ("has_constant_columns", .b has_constant_columns),
   ("has_many_zero_values", .b has_many_zero_values),
   ("quality_score", .q quality_score)]

/-- Models `flags.get` at key `quality_score` with default 0.0: the score entry of the flag
mapping, defaulting to 0 when the key is absent. -/
def getScore (m : List (String × FlagValue)) : ℚ :=
  match m.lookup "quality_score" with
  | some (.q s) => s
  | _ => 0

/-- `flags.get(key, False)`: a boolean entry of the flag mapping,
defaulting to `false` when the key is absent. -/
def getBool (k : String) (m : List (String × FlagValue)) : Bool :=
  match m.lookup k with
  | some (.b v) => v
  | _ => false

/-- The numeric columns of a table, in source order. -/
def numericCols (t : Table) : List Column :=
  t.cols.filter (fun c => c.isNumeric)

/-- Pairwise-complete observations of two columns: the rows where both
cells hold a numeric value. -/
def pairVals (c₁ c₂ : Column) : List (ℚ × ℚ) :=
  (c₁.values.zip c₂.values).filterMap (fun p =>
    match p with
    | (.num x, .num y) => some (x, y)
    | _ => none)

/-- Sum of products of deviations from the respective means
(the unnormalised covariance of the paired observations). -/
def covSum (ps : List (ℚ × ℚ)) : ℚ :=
  (ps.map (fun p =>
    (p.1 - listMean (ps.map Prod.fst)) * (p.2 - listMean (ps.map Prod.snd)))).sum

/-- Sum of squared deviations of the first components. -/
def varSumX (ps : List (ℚ × ℚ)) : ℚ :=
  (ps.map (fun p => (p.1 - listMean (ps.map Prod.fst)) ^ 2)).sum

/-- Sum of squared deviations of the second components. -/
def varSumY (ps : List (ℚ × ℚ)) : ℚ :=
  (ps.map (fun p => (p.2 - listMean (ps.map Prod.snd)) ^ 2)).sum

/-- Pearson correlation of a list of paired observations. -/
noncomputable def corrPairs (ps : List (ℚ × ℚ)) : ℝ :=
  (covSum ps : ℝ) / Real.sqrt ((varSumX ps : ℝ) * (varSumY ps : ℝ))

/-- Modelled from the spec: CorrelationAnalyzer (`correlation_matrix` of
the absent `core` module).  Pairwise Pearson correlation restricted to
numeric columns; fewer than 2 numeric columns yields an empty matrix. -/
noncomputable def correlation_matrix (t : Table) : List (List ℝ) :=
  if (numericCols t).length < 2 then []
  else (numericCols t).map (fun c₁ =>
    (numericCols t).map (fun c₂ => corrPairs (pairVals c₁ c₂)))

/-! ## The HTTP layer (`api.py`, embedded from source)

`latency_ms` is wall-clock measurement and is not modelled. -/

/-- Request body of the `/quality` endpoint. -/
structure QualityRequest where
  n_rows : ℤ
  n_cols : ℤ
  max_missing_share : ℚ
deriving DecidableEq, Repr

/-- The `FlagInfo` response model of `api.py`. -/
structure FlagInfo where
  too_few_rows : Bool
  too_many_missing : Bool
  has_constant_columns : Bool
  has_many_zero_values : Bool
deriving DecidableEq, Repr

/-- The `QualityResponse` model of `api.py` (without `latency_ms`). -/
structure QualityResponse where
  ok_for_model : Bool
  quality_score : ℚ
  flags : FlagInfo
deriving DecidableEq, Repr

/-- The dummy table fabricated by `predict_quality`:
one column named `dummy_col` holding the value 1 repeated `n_rows`
times, plus columns `dummy_col_i` for `i in range(n_cols - 1)` holding
the same values.  In Python the list `[1]*n` is
empty for `n ≤ 0` and `range(n_cols-1)` is empty for `n_cols ≤ 1`,
which `Int.toNat` captures. -/
def fakeDf (req : QualityRequest) : Table :=
  { cols :=
      { name := "dummy_col", values := List.replicate req.n_rows.toNat (.num 1) }
      :: (List.range (req.n_cols - 1).toNat).map (fun i =>
          { name := "dummy_col_" ++ toString i
            values := List.replicate req.n_rows.toNat (.num 1) }) }

/-- The fake summary fabricated by `predict_quality`: request counts,
no column profiles. -/
def fakeSummary (req : QualityRequest) : DatasetSummary :=
  { n_rows := req.n_rows, n_cols := req.n_cols, columns := [] }

/-- The fake missing dataframe fabricated by `predict_quality`: a single
`missing_share` entry holding the `max_missing_share` of the request. -/
def fakeMissing (req : QualityRequest) : List ℚ :=
  [req.max_missing_share]

/-- `FlagInfo(too_few_rows=flags.get(...), ...)` as built by both
quality endpoints. -/
def mkFlagInfo (m : List (String × FlagValue)) : FlagInfo :=
  { too_few_rows := getBool "too_few_rows" m
    too_many_missing := getBool "too_many_missing" m
    has_constant_columns := getBool "has_constant_columns" m
    has_many_zero_values := getBool "has_many_zero_values" m }

/-- Models `ok_for_model`: the score read from the flag mapping
(default 0.0) compared against 0.5. -/
def okForModel (m : List (String × FlagValue)) : Bool :=
  getScore m > (1 : ℚ) / 2

/-- The `/quality` endpoint: fabricates the dummy table, summary and
missing dataframe from the request and scores them with
`compute_quality_flags`. -/
def predict_quality (cfg : QualityConfig) (req : QualityRequest) :
    QualityResponse :=
  let flags := compute_quality_flags cfg (fakeDf req) (fakeSummary req) (fakeMissing req)
  { ok_for_model := okForModel flags
    quality_score := getScore flags
    flags := mkFlagInfo flags }

/-- The `/quality-from-csv` endpoint applied to an already-parsed table:
runs the real pipeline and scores it. -/
noncomputable def predict_quality_from_csv (cfg : QualityConfig) (df : Table) :
    QualityResponse :=
  let flags := compute_quality_flags cfg df (summarize_dataset df)
    ((missing_table df).map (fun e => e.missing_share))
  { ok_for_model := okForModel flags
    quality_score := getScore flags
    flags := mkFlagInfo flags }

/-! ## Bridging lemmas: reading the flag mapping back -/

theorem getBool_cqf_too_few_rows (cfg : QualityConfig) (df : Table)
    (s : DatasetSummary) (m : List ℚ) :
    getBool "too_few_rows" (compute_quality_flags cfg df s m)
      = decide (s.n_rows < cfg.min_rows) := rfl

theorem getBool_cqf_too_many_columns (cfg : QualityConfig) (df : Table)
    (s : DatasetSummary) (m : List ℚ) :
    getBool "too_many_columns" (compute_quality_flags cfg df s m)
      = decide (s.n_cols > cfg.max_cols) := rfl

theorem getBool_cqf_too_many_missing (cfg : QualityConfig) (df : Table)
    (s : DatasetSummary) (m : List ℚ) :
    getBool "too_many_missing" (compute_quality_flags cfg df s m)
      = decide (listMax m > cfg.max_missing_share_threshold) := rfl

theorem getBool_cqf_has_constant_columns (cfg : QualityConfig) (df : Table)
    (s : DatasetSummary) (m : List ℚ) :
    getBool "has_constant_columns" (compute_quality_flags cfg df s m)
      = df.cols.any (fun c => c.nUnique ≤ 1) := rfl

theorem getBool_cqf_has_many_zero_values (cfg : QualityConfig) (df : Table)
    (s : DatasetSummary) (m : List ℚ) :
    getBool "has_many_zero_values" (compute_quality_flags cfg df s m)
      = df.cols.any (fun c =>
          c.isNumeric && !c.numericVals.isEmpty
            && c.zeroShare > cfg.zero_share_threshold) := rfl

theorem getScore_cqf (cfg : QualityConfig) (df : Table)
    (s : DatasetSummary) (m : List ℚ) :
    getScore (compute_quality_flags cfg df s m)
      = scoreOfFlags cfg (decide (s.n_rows < cfg.min_rows))
          (decide (s.n_cols > cfg.max_cols))
          (decide (listMax m > cfg.max_missing_share_threshold))
          (df.cols.any (fun c => c.nUnique ≤ 1))
          (df.cols.any (fun c =>
            c.isNumeric && !c.numericVals.isEmpty
              && c.zeroShare > cfg.zero_share_threshold)) := rfl

/-! ## Penalty-sum arithmetic -/

theorem ite_weight_nonneg (b : Bool) (w : ℚ) (hw : 0 ≤ w) :
    0 ≤ (if b then w else 0) := by
  cases b <;> simp [hw]

theorem penaltySum_nonneg (cfg : QualityConfig)
    (h1 : 0 ≤ cfg.w_too_few_rows) (h2 : 0 ≤ cfg.w_too_many_columns)
    (h3 : 0 ≤ cfg.w_too_many_missing) (h4 : 0 ≤ cfg.w_has_constant_columns)
    (h5 : 0 ≤ cfg.w_has_many_zero_values)
    (tfr tmc tmm hcc hmz : Bool) :
    0 ≤ penaltySum cfg tfr tmc tmm hcc hmz := by
  unfold penaltySum
  have := ite_weight_nonneg tfr _ h1
  have := ite_weight_nonneg tmc _ h2
  have := ite_weight_nonneg tmm _ h3
  have := ite_weight_nonneg hcc _ h4
  have := ite_weight_nonneg hmz _ h5
  linarith

theorem ite_weight_mono (b₁ b₂ : Bool) (w : ℚ) (hw : 0 ≤ w)
    (h : b₁ = true → b₂ = true) :
    (if b₁ then w else 0) ≤ (if b₂ then w else 0) := by
  cases b₁ with
  | false => exact ite_weight_nonneg b₂ w hw
  | true => rw [h rfl]

theorem penaltySum_mono (cfg : QualityConfig)
    (h1 : 0 ≤ cfg.w_too_few_rows) (h2 : 0 ≤ cfg.w_too_many_columns)
    (h3 : 0 ≤ cfg.w_too_many_missing) (h4 : 0 ≤ cfg.w_has_constant_columns)
    (h5 : 0 ≤ cfg.w_has_many_zero_values)
    (a₁ b₁ c₁ d₁ e₁ a₂ b₂ c₂ d₂ e₂ : Bool)
    (ha : a₁ = true → a₂ = true) (hb : b₁ = true → b₂ = true)
    (hc : c₁ = true → c₂ = true) (hd : d₁ = true → d₂ = true)
    (he : e₁ = true → e₂ = true) :
    penaltySum cfg a₁ b₁ c₁ d₁ e₁ ≤ penaltySum cfg a₂ b₂ c₂ d₂ e₂ := by
  unfold penaltySum
  have := ite_weight_mono a₁ a₂ _ h1 ha
  have := ite_weight_mono b₁ b₂ _ h2 hb
  have := ite_weight_mono c₁ c₂ _ h3 hc
  have := ite_weight_mono d₁ d₂ _ h4 hd
  have := ite_weight_mono e₁ e₂ _ h5 he
  linarith

theorem scoreOfFlags_mono (cfg : QualityConfig)
    (h1 : 0 ≤ cfg.w_too_few_rows) (h2 : 0 ≤ cfg.w_too_many_columns)
    (h3 : 0 ≤ cfg.w_too_many_missing) (h4 : 0 ≤ cfg.w_has_constant_columns)
    (h5 : 0 ≤ cfg.w_has_many_zero_values)
    (a₁ b₁ c₁ d₁ e₁ a₂ b₂ c₂ d₂ e₂ : Bool)
    (ha : a₁ = true → a₂ = true) (hb : b₁ = true → b₂ = true)
    (hc : c₁ = true → c₂ = true) (hd : d₁ = true → d₂ = true)
    (he : e₁ = true → e₂ = true) :
    scoreOfFlags cfg a₂ b₂ c₂ d₂ e₂ ≤ scoreOfFlags cfg a₁ b₁ c₁ d₁ e₁ := by
  unfold scoreOfFlags
  have := penaltySum_mono cfg h1 h2 h3 h4 h5 a₁ b₁ c₁ d₁ e₁ a₂ b₂ c₂ d₂ e₂ ha hb hc hd he
  apply max_le_max le_rfl
  linarith

/-! ## Claims C2, C3, C4, C5 -/

/-- C5: for every input, the mapping returned by `compute_quality_flags`
contains all of the named entries `too_few_rows`, `too_many_columns`,
`max_missing_share`, `too_many_missing`, `has_constant_columns`,
`has_many_zero_values` and `quality_score` in the same result, so both
the CLI report keys and the API key are present. -/
theorem c5_flag_keys_all_present (cfg : QualityConfig) (df : Table)
    (s : DatasetSummary) (m : List ℚ) :
    ((compute_quality_flags cfg df s m).lookup "too_few_rows").isSome = true
    ∧ ((compute_quality_flags cfg df s m).lookup "too_many_columns").isSome = true
    ∧ ((compute_quality_flags cfg df s m).lookup "max_missing_share").isSome = true
    ∧ ((compute_quality_flags cfg df s m).lookup "too_many_missing").isSome = true
    ∧ ((compute_quality_flags cfg df s m).lookup "has_constant_columns").isSome = true
    ∧ ((compute_quality_flags cfg df s m).lookup "has_many_zero_values").isSome = true
    ∧ ((compute_quality_flags cfg df s m).lookup "quality_score").isSome = true :=
  ⟨rfl, rfl, rfl, rfl, rfl, rfl, rfl⟩

/-- C2: the `has_constant_columns` flag is `True` iff at least one column
of the raw table has `n_unique ≤ 1` among its non-missing values,
regardless of the summary, the missing shares and the other columns. -/
theorem c2_has_constant_columns_iff (cfg : QualityConfig) (df : Table)
    (s : DatasetSummary) (m : List ℚ) :
    (compute_quality_flags cfg df s m).lookup "has_constant_columns"
      = some (.b true) ↔ ∃ c ∈ df.cols, c.nUnique ≤ 1 := by
  have h : (compute_quality_flags cfg df s m).lookup "has_constant_columns"
      = some (.b (df.cols.any (fun c => c.nUnique ≤ 1))) := rfl
  rw [h]
  simp [List.any_eq_true]

/-- C3: `quality_score` equals `max(0, 1 - Σ penalty_i)` over the
penalty weights of the triggered flags, and with nonnegative weights it always
lies in `[0, 1]`, even when every flag is triggered. -/
theorem c3_quality_score_shape_and_bounds (cfg : QualityConfig) (df : Table)
    (s : DatasetSummary) (m : List ℚ)
    (h1 : 0 ≤ cfg.w_too_few_rows) (h2 : 0 ≤ cfg.w_too_many_columns)
    (h3 : 0 ≤ cfg.w_too_many_missing) (h4 : 0 ≤ cfg.w_has_constant_columns)
    (h5 : 0 ≤ cfg.w_has_many_zero_values) :
    getScore (compute_quality_flags cfg df s m)
      = max 0 (1 - penaltySum cfg
          (getBool "too_few_rows" (compute_quality_flags cfg df s m))
          (getBool "too_many_columns" (compute_quality_flags cfg df s m))
          (getBool "too_many_missing" (compute_quality_flags cfg df s m))
          (getBool "has_constant_columns" (compute_quality_flags cfg df s m))
          (getBool "has_many_zero_values" (compute_quality_flags cfg df s m)))
    ∧ 0 ≤ getScore (compute_quality_flags cfg df s m)
    ∧ getScore (compute_quality_flags cfg df s m) ≤ 1 := by
  refine ⟨rfl, ?_, ?_⟩
  · rw [getScore_cqf]
    exact le_max_left 0 _
  · rw [getScore_cqf]
    unfold scoreOfFlags
    have := penaltySum_nonneg cfg h1 h2 h3 h4 h5
      (decide (s.n_rows < cfg.min_rows))
      (decide (s.n_cols > cfg.max_cols))
      (decide (listMax m > cfg.max_missing_share_threshold))
      (df.cols.any (fun c => c.nUnique ≤ 1))
      (df.cols.any (fun c =>
        c.isNumeric && !c.numericVals.isEmpty
          && c.zeroShare > cfg.zero_share_threshold))
    apply max_le (by norm_num)
    linarith

/-- C3 witness at a concrete configuration and input. -/
theorem c3_quality_score_shape_and_bounds_witness :
    (0 : ℚ) ≤ 1/10 ∧
    (getScore (compute_quality_flags
        ⟨2, 10, 1/2, 9/10, 1/10, 1/10, 1/10, 1/10, 1/10⟩
        ⟨[⟨"a", [.num 1]⟩]⟩ ⟨1, 1, []⟩ [0])
      = max 0 (1 - penaltySum
          ⟨2, 10, 1/2, 9/10, 1/10, 1/10, 1/10, 1/10, 1/10⟩
          (getBool "too_few_rows" (compute_quality_flags
            ⟨2, 10, 1/2, 9/10, 1/10, 1/10, 1/10, 1/10, 1/10⟩
            ⟨[⟨"a", [.num 1]⟩]⟩ ⟨1, 1, []⟩ [0]))
          (getBool "too_many_columns" (compute_quality_flags
            ⟨2, 10, 1/2, 9/10, 1/10, 1/10, 1/10, 1/10, 1/10⟩
            ⟨[⟨"a", [.num 1]⟩]⟩ ⟨1, 1, []⟩ [0]))
          (getBool "too_many_missing" (compute_quality_flags
            ⟨2, 10, 1/2, 9/10, 1/10, 1/10, 1/10, 1/10, 1/10⟩
            ⟨[⟨"a", [.num 1]⟩]⟩ ⟨1, 1, []⟩ [0]))
          (getBool "has_constant_columns" (compute_quality_flags
            ⟨2, 10, 1/2, 9/10, 1/10, 1/10, 1/10, 1/10, 1/10⟩
            ⟨[⟨"a", [.num 1]⟩]⟩ ⟨1, 1, []⟩ [0]))
          (getBool "has_many_zero_values" (compute_quality_flags
            ⟨2, 10, 1/2, 9/10, 1/10, 1/10, 1/10, 1/10, 1/10⟩
            ⟨[⟨"a", [.num 1]⟩]⟩ ⟨1, 1, []⟩ [0])))
      ∧ 0 ≤ getScore (compute_quality_flags
          ⟨2, 10, 1/2, 9/10, 1/10, 1/10, 1/10, 1/10, 1/10⟩
          ⟨[⟨"a", [.num 1]⟩]⟩ ⟨1, 1, []⟩ [0])
      ∧ getScore (compute_quality_flags
          ⟨2, 10, 1/2, 9/10, 1/10, 1/10, 1/10, 1/10, 1/10⟩
          ⟨[⟨"a", [.num 1]⟩]⟩ ⟨1, 1, []⟩ [0]) ≤ 1) :=
  ⟨by norm_num,
   c3_quality_score_shape_and_bounds _ _ _ _
     (by norm_num) (by norm_num) (by norm_num) (by norm_num) (by norm_num)⟩

/-- C4: with nonnegative penalty weights, if every flag triggered by the
first input is also triggered by the second, the quality score of the
second input is at most that of the first. -/
theorem c4_quality_score_monotone (cfg : QualityConfig)
    (h1 : 0 ≤ cfg.w_too_few_rows) (h2 : 0 ≤ cfg.w_too_many_columns)
    (h3 : 0 ≤ cfg.w_too_many_missing) (h4 : 0 ≤ cfg.w_has_constant_columns)
    (h5 : 0 ≤ cfg.w_has_many_zero_values)
    (df₁ : Table) (s₁ : DatasetSummary) (m₁ : List ℚ)
    (df₂ : Table) (s₂ : DatasetSummary) (m₂ : List ℚ)
    (ha : getBool "too_few_rows" (compute_quality_flags cfg df₁ s₁ m₁) = true →
      getBool "too_few_rows" (compute_quality_flags cfg df₂ s₂ m₂) = true)
    (hb : getBool "too_many_columns" (compute_quality_flags cfg df₁ s₁ m₁) = true →
      getBool "too_many_columns" (compute_quality_flags cfg df₂ s₂ m₂) = true)
    (hc : getBool "too_many_missing" (compute_quality_flags cfg df₁ s₁ m₁) = true →
      getBool "too_many_missing" (compute_quality_flags cfg df₂ s₂ m₂) = true)
    (hd : getBool "has_constant_columns" (compute_quality_flags cfg df₁ s₁ m₁) = true →
      getBool "has_constant_columns" (compute_quality_flags cfg df₂ s₂ m₂) = true)
    (he : getBool "has_many_zero_values" (compute_quality_flags cfg df₁ s₁ m₁) = true →
      getBool "has_many_zero_values" (compute_quality_flags cfg df₂ s₂ m₂) = true) :
    getScore (compute_quality_flags cfg df₂ s₂ m₂)
      ≤ getScore (compute_quality_flags cfg df₁ s₁ m₁) := by
  rw [getScore_cqf, getScore_cqf]
  exact scoreOfFlags_mono cfg h1 h2 h3 h4 h5 _ _ _ _ _ _ _ _ _ _ ha hb hc hd he

/-- C4 witness: the same raw table summarized once with two rows and
once with one row, the second run triggering `too_few_rows`. -/
theorem c4_quality_score_monotone_witness :
    getScore (compute_quality_flags
        ⟨2, 10, 1, 1, 1/10, 1/10, 1/10, 1/10, 1/10⟩
        ⟨[⟨"a", [.str "x", .str "y"]⟩]⟩ ⟨1, 1, []⟩ [0])
      ≤ getScore (compute_quality_flags
        ⟨2, 10, 1, 1, 1/10, 1/10, 1/10, 1/10, 1/10⟩
        ⟨[⟨"a", [.str "x", .str "y"]⟩]⟩ ⟨2, 1, []⟩ [0]) :=
  c4_quality_score_monotone _
    (by norm_num) (by norm_num) (by norm_num) (by norm_num) (by norm_num)
    _ _ _ _ _ _
    (by decide) (by decide) (by decide) (by decide) (by decide)

/-! ## Claims C1 and C6 -/

theorem foldl_max_le (b : ℚ) (xs : List ℚ) :
    ∀ a : ℚ, a ≤ b → (∀ x ∈ xs, x ≤ b) → xs.foldl max a ≤ b := by
  induction xs with
  | nil => intro a ha _; simpa using ha
  | cons x xs ih =>
    intro a ha h
    simp only [List.foldl_cons]
    exact ih (max a x) (max_le ha (h x (by simp)))
      (fun y hy => h y (by simp [hy]))

theorem listMax_le (xs : List ℚ) (b : ℚ) (hb : 0 ≤ b)
    (h : ∀ x ∈ xs, x ≤ b) : listMax xs ≤ b := by
  cases xs with
  | nil => simpa [listMax] using hb
  | cons x xs =>
    exact foldl_max_le b xs x (h x (by simp)) (fun y hy => h y (by simp [hy]))

/-- C1: a dataset with at least one row, no constant columns, no
zero-heavy numeric column, no missing values, and row/column counts
within the thresholds gets `quality_score = 1` and every boolean flag
`false` from the full pipeline. -/
theorem c1_clean_dataset_full_score (cfg : QualityConfig) (df : Table)
    (_hrow : 1 ≤ df.nRows)
    (hconst : ∀ c ∈ df.cols, ¬ (c.nUnique ≤ 1))
    (hzero : ∀ c ∈ df.cols, c.isNumeric = true → c.numericVals ≠ [] →
      ¬ (c.zeroShare > cfg.zero_share_threshold))
    (hnomiss : ∀ c ∈ df.cols, c.nMissing = 0)
    (hmin : cfg.min_rows ≤ (df.nRows : ℤ))
    (hmax : (df.nCols : ℤ) ≤ cfg.max_cols)
    (hthr : 0 ≤ cfg.max_missing_share_threshold) :
    getScore (compute_quality_flags cfg df (summarize_dataset df)
        ((missing_table df).map (fun e => e.missing_share))) = 1
    ∧ getBool "too_few_rows" (compute_quality_flags cfg df (summarize_dataset df)
        ((missing_table df).map (fun e => e.missing_share))) = false
    ∧ getBool "too_many_columns" (compute_quality_flags cfg df (summarize_dataset df)
        ((missing_table df).map (fun e => e.missing_share))) = false
    ∧ getBool "too_many_missing" (compute_quality_flags cfg df (summarize_dataset df)
        ((missing_table df).map (fun e => e.missing_share))) = false
    ∧ getBool "has_constant_columns" (compute_quality_flags cfg df (summarize_dataset df)
        ((missing_table df).map (fun e => e.missing_share))) = false
    ∧ getBool "has_many_zero_values" (compute_quality_flags cfg df (summarize_dataset df)
        ((missing_table df).map (fun e => e.missing_share))) = false := by
  have hsum_rows : (summarize_dataset df).n_rows = (df.nRows : ℤ) := rfl
  have hsum_cols : (summarize_dataset df).n_cols = (df.nCols : ℤ) := rfl
  have e1 : getBool "too_few_rows" (compute_quality_flags cfg df (summarize_dataset df)
      ((missing_table df).map (fun e => e.missing_share))) = false := by
    rw [getBool_cqf_too_few_rows, hsum_rows, decide_eq_false_iff_not]
    exact not_lt.mpr hmin
  have e2 : getBool "too_many_columns" (compute_quality_flags cfg df (summarize_dataset df)
      ((missing_table df).map (fun e => e.missing_share))) = false := by
    rw [getBool_cqf_too_many_columns, hsum_cols, decide_eq_false_iff_not]
    exact not_lt.mpr hmax
  have hshares : ∀ x ∈ (missing_table df).map (fun e => e.missing_share),
      x ≤ cfg.max_missing_share_threshold := by
    intro x hx
    rcases List.mem_map.mp hx with ⟨e, he, rfl⟩
    rcases List.mem_map.mp he with ⟨c, hc, rfl⟩
    simp only [missing_table]
    split
    · exact hthr
    · rw [hnomiss c hc]
      simpa using hthr
  have e3 : getBool "too_many_missing" (compute_quality_flags cfg df (summarize_dataset df)
      ((missing_table df).map (fun e => e.missing_share))) = false := by
    rw [getBool_cqf_too_many_missing, decide_eq_false_iff_not]
    exact not_lt.mpr (listMax_le _ _ hthr hshares)
  have e4 : getBool "has_constant_columns" (compute_quality_flags cfg df (summarize_dataset df)
      ((missing_table df).map (fun e => e.missing_share))) = false := by
    rw [getBool_cqf_has_constant_columns, List.any_eq_false]
    intro c hc
    simpa using hconst c hc
  have e5 : getBool "has_many_zero_values" (compute_quality_flags cfg df (summarize_dataset df)
      ((missing_table df).map (fun e => e.missing_share))) = false := by
    rw [getBool_cqf_has_many_zero_values, List.any_eq_false]
    intro c hc
    simp only [Bool.and_eq_true, decide_eq_true_eq, List.isEmpty_iff,
      Bool.not_eq_true', Bool.not_eq_true]
    rintro ⟨⟨hn, hne⟩, hgt⟩
    exact hzero c hc hn (by simpa [List.isEmpty_iff] using hne) hgt
  refine ⟨?_, e1, e2, e3, e4, e5⟩
  rw [getScore_cqf]
  rw [getBool_cqf_too_few_rows] at e1
  rw [getBool_cqf_too_many_columns] at e2
  rw [getBool_cqf_too_many_missing] at e3
  rw [getBool_cqf_has_constant_columns] at e4
  rw [getBool_cqf_has_many_zero_values] at e5
  rw [e1, e2, e3, e4, e5]
  norm_num [scoreOfFlags, penaltySum]

/-- C1 witness: two increasing numeric columns and one string column,
two rows, generous thresholds. -/
theorem c1_clean_dataset_full_score_witness :
    1 ≤ Table.nRows ⟨[⟨"a", [.num 1, .num 2]⟩, ⟨"b", [.num 10, .num 20]⟩,
        ⟨"c", [.str "u", .str "v"]⟩]⟩
    ∧ getScore (compute_quality_flags ⟨2, 10, 1, 1, 1/10, 1/10, 1/10, 1/10, 1/10⟩
        ⟨[⟨"a", [.num 1, .num 2]⟩, ⟨"b", [.num 10, .num 20]⟩,
          ⟨"c", [.str "u", .str "v"]⟩]⟩
        (summarize_dataset ⟨[⟨"a", [.num 1, .num 2]⟩, ⟨"b", [.num 10, .num 20]⟩,
          ⟨"c", [.str "u", .str "v"]⟩]⟩)
        ((missing_table ⟨[⟨"a", [.num 1, .num 2]⟩, ⟨"b", [.num 10, .num 20]⟩,
          ⟨"c", [.str "u", .str "v"]⟩]⟩).map (fun e => e.missing_share))) = 1 := by
  refine ⟨by decide, ?_⟩
  have h := c1_clean_dataset_full_score ⟨2, 10, 1, 1, 1/10, 1/10, 1/10, 1/10, 1/10⟩
    ⟨[⟨"a", [.num 1, .num 2]⟩, ⟨"b", [.num 10, .num 20]⟩,
      ⟨"c", [.str "u", .str "v"]⟩]⟩
    (by decide) (by decide)
    (by
      intro c hc hn hne
      fin_cases hc <;>
        simp_all [Column.zeroShare, Column.numericVals, Column.isNumeric])
    (by decide) (by decide) (by decide) (by norm_num)
  exact h.1

/-- C6: every entry of the missing table has
`missing_share = n_missing / n_rows` with the `n_rows = 0` case defined
as 0, and the share always lies in `[0, 1]` for rectangular input. -/
theorem c6_missing_share_bounds (t : Table) (ht : t.Rect) :
    ∀ e ∈ missing_table t,
      e.missing_share
        = (if t.nRows = 0 then 0 else (e.n_missing : ℚ) / (t.nRows : ℚ))
      ∧ 0 ≤ e.missing_share ∧ e.missing_share ≤ 1 := by
  intro e he
  rcases List.mem_map.mp he with ⟨c, hc, rfl⟩
  refine ⟨rfl, ?_, ?_⟩
  · dsimp only
    split
    · exact le_refl 0
    · positivity
  · dsimp only
    split
    · norm_num
    · rename_i h0
      rw [div_le_one (by positivity)]
      have hle : c.nMissing ≤ t.nRows := by
        rw [← ht c hc]
        exact List.length_filter_le _ _
      exact_mod_cast hle

/-- C6 witness: one column with one missing value out of two rows. -/
theorem c6_missing_share_bounds_witness :
    Table.Rect ⟨[⟨"a", [.na, .num 1]⟩]⟩
    ∧ (⟨"a", 1, ((1:ℕ):ℚ) / ((2:ℕ):ℚ)⟩ : MissingEntry)
        ∈ missing_table ⟨[⟨"a", [.na, .num 1]⟩]⟩
    ∧ (0 ≤ (((1:ℕ):ℚ) / ((2:ℕ):ℚ)) ∧ (((1:ℕ):ℚ) / ((2:ℕ):ℚ)) ≤ 1) := by
  have hmem : (⟨"a", 1, ((1:ℕ):ℚ) / ((2:ℕ):ℚ)⟩ : MissingEntry)
      ∈ missing_table ⟨[⟨"a", [.na, .num 1]⟩]⟩ := List.Mem.head _
  refine ⟨by decide, hmem, ?_⟩
  have h := c6_missing_share_bounds _ (by decide) _ hmem
  exact ⟨h.2.1, h.2.2⟩

/-! ## Claim C8 -/

theorem sumSqDev_nonneg (xs : List ℚ) : 0 ≤ sumSqDev xs := by
  apply List.sum_nonneg
  intro y hy
  rcases List.mem_map.mp hy with ⟨x, _, rfl⟩
  exact sq_nonneg _

theorem sampleStd_nonneg (xs : List ℚ) : 0 ≤ sampleStd xs := by
  unfold sampleStd
  split
  · exact le_refl 0
  · exact Real.sqrt_nonneg _

theorem sampleStd_sq (xs : List ℚ) (h : 2 ≤ xs.length) :
    sampleStd xs ^ 2 = (sumSqDev xs : ℝ) / ((xs.length : ℝ) - 1) := by
  unfold sampleStd
  rw [if_neg (by omega)]
  apply Real.sq_sqrt
  apply div_nonneg
  · exact_mod_cast sumSqDev_nonneg xs
  · have : (2 : ℝ) ≤ (xs.length : ℝ) := by exact_mod_cast h
    linarith

/-- C8: for a numeric column, all four numeric stats are absent when no
non-missing value exists; exactly one non-missing value `x` yields
`min = max = mean = x` and `std = 0`; and for at least two values the
std follows the sample `n-1` convention
(`std² = Σ(x - mean)² / (n - 1)`, with `std ≥ 0`). -/
theorem c8_numeric_stats (c : Column) (hnum : c.isNumeric = true) :
    (c.numericVals = [] → (profileColumn c).numStats = none)
    ∧ (∀ x : ℚ, c.numericVals = [x] →
        (profileColumn c).numStats = some ⟨x, x, x, 0⟩)
    ∧ (2 ≤ c.numericVals.length → ∀ s, (profileColumn c).numStats = some s →
        0 ≤ s.std
        ∧ s.std ^ 2 = (sumSqDev c.numericVals : ℝ) / ((c.numericVals.length : ℝ) - 1)) := by
  refine ⟨?_, ?_, ?_⟩
  · intro h
    simp [profileColumn, hnum, h]
  · intro x h
    have h1 : listMean [x] = x := by simp [listMean]
    have h2 : sampleStd [x] = 0 := by simp [sampleStd]
    simp [profileColumn, hnum, h, listMin, listMax, h1, h2]
  · intro hlen s hs
    cases hv : c.numericVals with
    | nil => rw [hv] at hlen; simp at hlen
    | cons x rest =>
      rw [profileColumn] at hs
      rw [if_pos hnum] at hs
      simp only [hv] at hs
      have hstd : s.std = sampleStd (x :: rest) := by
        cases hs
        rfl
      rw [hstd, ← hv]
      exact ⟨sampleStd_nonneg _, sampleStd_sq _ (by rw [hv] at hlen ⊢; exact hlen)⟩

/-- C8 witness: a numeric column with one missing and one present value. -/
theorem c8_numeric_stats_witness :
    Column.isNumeric ⟨"x", [.na, .num 3]⟩ = true
    ∧ Column.numericVals ⟨"x", [.na, .num 3]⟩ = [3]
    ∧ (profileColumn ⟨"x", [.na, .num 3]⟩).numStats = some ⟨3, 3, 3, 0⟩ :=
  ⟨by decide, by decide, (c8_numeric_stats _ (by decide)).2.1 3 (by decide)⟩

/-! ## Claims C9 and C10 -/

/-- C9: `predict_quality` fabricates a dummy table from the row/column
counts of the request alone — every column is the constant value 1 repeated
`n_rows` times, with `n_cols` columns when `n_cols ≥ 1` and exactly one
column when `n_cols ≤ 0` — and the score and flags of the response are the
result of `compute_quality_flags` on that fabricated table (with the
fabricated summary and missing dataframe), not on any real data. -/
theorem c9_fake_table_endpoint (cfg : QualityConfig) (req : QualityRequest)
    (h : 0 ≤ req.n_rows) :
    (1 ≤ req.n_cols → ((fakeDf req).nCols : ℤ) = req.n_cols)
    ∧ (req.n_cols ≤ 0 → (fakeDf req).nCols = 1)
    ∧ (∀ c ∈ (fakeDf req).cols,
        c.values = List.replicate req.n_rows.toNat (.num 1)
        ∧ (c.values.length : ℤ) = req.n_rows)
    ∧ (predict_quality cfg req).quality_score
        = getScore (compute_quality_flags cfg (fakeDf req) (fakeSummary req)
            (fakeMissing req))
    ∧ (predict_quality cfg req).flags
        = mkFlagInfo (compute_quality_flags cfg (fakeDf req) (fakeSummary req)
            (fakeMissing req)) := by
  refine ⟨?_, ?_, ?_, rfl, rfl⟩
  · intro h1
    simp only [fakeDf, Table.nCols, List.length_cons, List.length_map,
      List.length_range]
    omega
  · intro h0
    simp only [fakeDf, Table.nCols, List.length_cons, List.length_map,
      List.length_range]
    omega
  · intro c hc
    have hv : c.values = List.replicate req.n_rows.toNat (.num 1) := by
      rcases List.mem_cons.mp hc with h1 | h2
      · rw [h1]
      · rcases List.mem_map.mp h2 with ⟨i, _, rfl⟩
        rfl
    refine ⟨hv, ?_⟩
    rw [hv, List.length_replicate]
    exact Int.toNat_of_nonneg h

/-- C9 witness: a request for 3 rows and 2 columns. -/
theorem c9_fake_table_endpoint_witness :
    (0 : ℤ) ≤ (3 : ℤ)
    ∧ ((fakeDf ⟨3, 2, 0⟩).nCols : ℤ) = 2
    ∧ (predict_quality ⟨2, 10, 1, 1, 1/10, 1/10, 1/10, 1/10, 1/10⟩
        ⟨3, 2, 0⟩).quality_score
      = getScore (compute_quality_flags ⟨2, 10, 1, 1, 1/10, 1/10, 1/10, 1/10, 1/10⟩
          (fakeDf ⟨3, 2, 0⟩) (fakeSummary ⟨3, 2, 0⟩) (fakeMissing ⟨3, 2, 0⟩)) := by
  have h := c9_fake_table_endpoint ⟨2, 10, 1, 1, 1/10, 1/10, 1/10, 1/10, 1/10⟩
    ⟨3, 2, 0⟩ (by decide)
  exact ⟨by decide, h.1 (by decide), h.2.2.2.1⟩

/-- C10: in both quality endpoints, `ok_for_model` is `True` iff the
computed `quality_score` is strictly greater than ½; and when the flag
mapping lacks a `quality_score` key, the score read by the endpoints
defaults to 0 and `ok_for_model` is `False`. -/
theorem c10_ok_for_model_iff (cfg : QualityConfig) (req : QualityRequest)
    (df : Table) (m : List (String × FlagValue)) :
    ((predict_quality cfg req).ok_for_model = true
      ↔ (1 : ℚ)/2 < (predict_quality cfg req).quality_score)
    ∧ ((predict_quality_from_csv cfg df).ok_for_model = true
      ↔ (1 : ℚ)/2 < (predict_quality_from_csv cfg df).quality_score)
    ∧ (m.lookup "quality_score" = none →
        getScore m = 0 ∧ okForModel m = false) := by
  refine ⟨decide_eq_true_iff, decide_eq_true_iff, ?_⟩
  intro h
  have hs : getScore m = 0 := by simp [getScore, h]
  refine ⟨hs, ?_⟩
  unfold okForModel
  rw [hs]
  norm_num

/-- C10 witness: the empty flag mapping lacks the score key. -/
theorem c10_ok_for_model_iff_witness :
    ([] : List (String × FlagValue)).lookup "quality_score" = none
    ∧ getScore ([] : List (String × FlagValue)) = 0
    ∧ okForModel ([] : List (String × FlagValue)) = false := by
  have h := (c10_ok_for_model_iff ⟨2, 10, 1, 1, 1/10, 1/10, 1/10, 1/10, 1/10⟩
    ⟨3, 2, 0⟩ ⟨[]⟩ ([] : List (String × FlagValue))).2.2 rfl
  exact ⟨rfl, h.1, h.2⟩

/-! ## Claim C7 -/

/-- Entry `(i, j)` of the correlation matrix, when both indices are in
range. -/
noncomputable def corrEntry (t : Table) (i j : ℕ) : Option ℝ :=
  ((correlation_matrix t)[i]?).bind (fun row => row[j]?)

theorem zip_self_eq_map {α : Type} (l : List α) :
    l.zip l = l.map (fun a => (a, a)) := by
  induction l with
  | nil => rfl
  | cons a l ih => simp [List.zip_cons_cons, ih]

theorem pairVals_self (c : Column) :
    pairVals c c = c.numericVals.map (fun x => (x, x)) := by
  rw [pairVals, zip_self_eq_map, List.filterMap_map, Column.numericVals,
    List.map_filterMap]
  congr 1
  funext a
  cases a <;> rfl

theorem pairVals_swap (c₁ c₂ : Column) :
    pairVals c₂ c₁ = (pairVals c₁ c₂).map Prod.swap := by
  rw [pairVals, pairVals, ← List.zip_swap, List.filterMap_map,
    List.map_filterMap]
  congr 1
  funext p
  rcases p with ⟨a, b⟩
  cases a <;> cases b <;> rfl

theorem map_fst_swap (ps : List (ℚ × ℚ)) :
    (ps.map Prod.swap).map Prod.fst = ps.map Prod.snd := by
  rw [List.map_map]
  rfl

theorem map_snd_swap (ps : List (ℚ × ℚ)) :
    (ps.map Prod.swap).map Prod.snd = ps.map Prod.fst := by
  rw [List.map_map]
  rfl

theorem covSum_swap (ps : List (ℚ × ℚ)) :
    covSum (ps.map Prod.swap) = covSum ps := by
  rw [covSum, covSum, map_fst_swap, map_snd_swap, List.map_map]
  exact congrArg List.sum (List.map_congr_left fun p _ => mul_comm _ _)

theorem varSumX_swap (ps : List (ℚ × ℚ)) :
    varSumX (ps.map Prod.swap) = varSumY ps := by
  rw [varSumX, varSumY, map_fst_swap, List.map_map]
  rfl

theorem varSumY_swap (ps : List (ℚ × ℚ)) :
    varSumY (ps.map Prod.swap) = varSumX ps := by
  rw [varSumY, varSumX, map_snd_swap, List.map_map]
  rfl

theorem corrPairs_swap (ps : List (ℚ × ℚ)) :
    corrPairs (ps.map Prod.swap) = corrPairs ps := by
  rw [corrPairs, corrPairs, covSum_swap, varSumX_swap, varSumY_swap,
    mul_comm ((varSumY ps : ℝ)) ((varSumX ps : ℝ))]

theorem corrPairs_symm (c₁ c₂ : Column) :
    corrPairs (pairVals c₁ c₂) = corrPairs (pairVals c₂ c₁) := by
  rw [pairVals_swap c₁ c₂, corrPairs_swap]

theorem map_fst_dup (xs : List ℚ) :
    (xs.map (fun x => (x, x))).map Prod.fst = xs := by
  rw [List.map_map]
  exact (List.map_congr_left fun x _ => rfl).trans (List.map_id xs)

theorem map_snd_dup (xs : List ℚ) :
    (xs.map (fun x => (x, x))).map Prod.snd = xs := by
  rw [List.map_map]
  exact (List.map_congr_left fun x _ => rfl).trans (List.map_id xs)

theorem covSum_diag (xs : List ℚ) :
    covSum (xs.map (fun x => (x, x))) = sumSqDev xs := by
  rw [covSum, sumSqDev, List.map_map, map_fst_dup, map_snd_dup]
  exact congrArg List.sum (List.map_congr_left fun x _ => (pow_two (x - listMean xs)).symm)

theorem varSumX_diag (xs : List ℚ) :
    varSumX (xs.map (fun x => (x, x))) = sumSqDev xs := by
  rw [varSumX, sumSqDev, List.map_map, map_fst_dup]
  exact congrArg List.sum (List.map_congr_left fun x _ => rfl)

theorem varSumY_diag (xs : List ℚ) :
    varSumY (xs.map (fun x => (x, x))) = sumSqDev xs := by
  rw [varSumY, sumSqDev, List.map_map, map_snd_dup]
  exact congrArg List.sum (List.map_congr_left fun x _ => rfl)

theorem corrPairs_diag (xs : List ℚ) (h : 0 < sumSqDev xs) :
    corrPairs (xs.map (fun x => (x, x))) = 1 := by
  rw [corrPairs, covSum_diag, varSumX_diag, varSumY_diag]
  have hpos : (0 : ℝ) < (sumSqDev xs : ℝ) := by exact_mod_cast h
  rw [Real.sqrt_mul_self hpos.le]
  exact div_self hpos.ne'

/-- C7: the correlation matrix is restricted to the numeric columns, is
symmetric in its two indices, has diagonal exactly 1 for every numeric
column with nonzero variance, and is the empty matrix (not an error)
when fewer than 2 numeric columns exist. -/
theorem c7_correlation_matrix (t : Table) :
    ((numericCols t).length < 2 → correlation_matrix t = [])
    ∧ (2 ≤ (numericCols t).length →
        correlation_matrix t = (numericCols t).map (fun c₁ =>
          (numericCols t).map (fun c₂ => corrPairs (pairVals c₁ c₂))))
    ∧ (∀ i j : ℕ, corrEntry t i j = corrEntry t j i)
    ∧ (∀ i : ℕ, ∀ c : Column, (numericCols t)[i]? = some c →
        2 ≤ (numericCols t).length → 0 < sumSqDev c.numericVals →
        corrEntry t i i = some 1) := by
  refine ⟨?_, ?_, ?_, ?_⟩
  · intro h
    rw [correlation_matrix, if_pos h]
  · intro h
    rw [correlation_matrix, if_neg (not_lt.mpr h)]
  · intro i j
    by_cases hlen : (numericCols t).length < 2
    · simp [corrEntry, correlation_matrix, hlen]
    · rcases h₁ : (numericCols t)[i]? with _ | c₁ <;>
        rcases h₂ : (numericCols t)[j]? with _ | c₂
      · simp [corrEntry, correlation_matrix, hlen, h₁, h₂]
      · simp [corrEntry, correlation_matrix, hlen, h₁, h₂]
      · simp [corrEntry, correlation_matrix, hlen, h₁, h₂]
      · simp [corrEntry, correlation_matrix, hlen, h₁, h₂, corrPairs_symm c₁ c₂]
  · intro i c hc hlen hvar
    have hm : ¬ ((numericCols t).length < 2) := not_lt.mpr hlen
    simp [corrEntry, correlation_matrix, hm, hc, pairVals_self,
      corrPairs_diag _ hvar]

/-- C7 witness: a one-numeric-column table giving the empty matrix, and
a two-numeric-column table with symmetric entries and unit diagonal. -/
theorem c7_correlation_matrix_witness :
    (numericCols ⟨[⟨"a", [.num 0, .num 1]⟩, ⟨"s", [.str "u", .str "v"]⟩]⟩).length < 2
    ∧ correlation_matrix ⟨[⟨"a", [.num 0, .num 1]⟩, ⟨"s", [.str "u", .str "v"]⟩]⟩ = []
    ∧ corrEntry ⟨[⟨"a", [.num 0, .num 1]⟩, ⟨"b", [.num 1, .num 0]⟩]⟩ 0 1
      = corrEntry ⟨[⟨"a", [.num 0, .num 1]⟩, ⟨"b", [.num 1, .num 0]⟩]⟩ 1 0
    ∧ 0 < sumSqDev (Column.numericVals ⟨"a", [.num 0, .num 1]⟩)
    ∧ corrEntry ⟨[⟨"a", [.num 0, .num 1]⟩, ⟨"b", [.num 1, .num 0]⟩]⟩ 0 0 = some 1 := by
  have hv : Column.numericVals ⟨"a", [.num 0, .num 1]⟩ = [0, 1] := by decide
  have hvar : 0 < sumSqDev (Column.numericVals ⟨"a", [.num 0, .num 1]⟩) := by
    rw [hv]
    norm_num [sumSqDev, listMean, List.map_cons, List.map_nil,
      List.sum_cons, List.sum_nil]
  refine ⟨by decide,
    (c7_correlation_matrix _).1 (by decide),
    (c7_correlation_matrix ⟨[⟨"a", [.num 0, .num 1]⟩, ⟨"b", [.num 1, .num 0]⟩]⟩).2.2.1 0 1,
    hvar, ?_⟩
  exact (c7_correlation_matrix _).2.2.2 0 ⟨"a", [.num 0, .num 1]⟩
    (by decide) (by decide) hvar

end EdaCli
